import Mathlib

/-!
Verification of the guest-view controller in
`src/atom/browser/api/atom_api_web_contents.cc`.

The development shallowly embeds the state of `atom::api::WebContents`
(the guest-view controller) and the operations the claims of the specification
are about: the `SetSize` auto-size negotiation, `GuestSizeChanged`,
`WillAttach` / `GetOwnerWebContents`, `Destroy` / `IsAlive`,
`DidUpdateFaviconURL`, and the `mate::Converter<SetSizeParams>::FromV8`
parameter conversion.

Modelling conventions:
* `gfx::Size` clamps negative components to zero on construction, so size
  components are modelled as `Nat`.
* Raw pointers that are only tested for null (`storage_`, `guest_host_`,
  the observed `web_contents()`) are modelled as `Bool` ("non-null").
* The embedder pointer is modelled as `Option Nat` (an opaque identity).
* Operations whose C++ body dereferences a possibly-null pointer return
  `Option`: `none` models the null-pointer fault, `some` the normal run.
* `Emit(...)` calls and outbound engine requests are collected in a
  `List Event` returned alongside the new state.
* The visible viewport of the embedder (queried live by `GetDefaultSize` when
  the guest is a full-page plugin) is carried as a state field
  `embedderViewport` standing for the value that live query would return.
-/

set_option autoImplicit false

namespace AtomWebContents

/-- Model of `gfx::Size`: non-negative width and height. -/
structure Size where
  width : Nat
  height : Nat
deriving DecidableEq, Repr

/-- Model of `gfx::Size::SetToMin` (component-wise minimum with `o`). -/
def Size.setToMin (s o : Size) : Size :=
  ⟨min s.width o.width, min s.height o.height⟩

/-- Model of `gfx::Size::SetToMax` (component-wise maximum with `o`). -/
def Size.setToMax (s o : Size) : Size :=
  ⟨max s.width o.width, max s.height o.height⟩

/-- Model of `gfx::Size::IsEmpty`: true when either component is zero. -/
def Size.isEmpty (s : Size) : Bool :=
  s.width == 0 || s.height == 0

/-- Observable effects: `Emit` notifications and outbound engine requests. -/
inductive Event where
  | destroyed
  | renderViewDeleted
  | sizeChanged (oldW oldH newW newH : Nat)
  | enableAutoResize (minSize maxSize : Size)
  | disableAutoResize (size : Size)
  | sizeContents (size : Size)
deriving DecidableEq, Repr

/-- State of one `atom::api::WebContents` controller: the fields of the
C++ class that the verified operations read or write. -/
structure State where
  guest_instance_id : Int
  guest_opaque : Bool
  /-- Whether the `storage_` smart pointer is non-null. -/
  storage : Bool
  /-- Whether the observed `web_contents()` pointer is non-null. -/
  webAlive : Bool
  /-- Whether the `guest_host_` pointer is non-null. -/
  guest_host : Bool
  auto_size_enabled : Bool
  is_full_page_plugin : Bool
  /-- The `embedder_web_contents_` pointer, as an opaque identity. -/
  embedder : Option Nat
  min_auto_size : Size
  max_auto_size : Size
  normal_size : Size
  guest_size : Size
  /-- The visible viewport of the embedder at query time (environment input). -/
  embedderViewport : Size
deriving DecidableEq, Repr

/-- Model of the options-taking constructor `WebContents::WebContents(const
mate::Dictionary&)` (used by `WebContents::Create`): member initializers
plus `options.Get("guestInstanceId", ...)`, creation of `storage_` and
`Observe(storage_->GetWebContents())`.  `guest_host_` stays null until the
content layer calls `SetGuestHost`. -/
def mkFromOptions (guestInstanceId : Option Int) : State :=
  { guest_instance_id := guestInstanceId.getD (-1)
    guest_opaque := true
    storage := true
    webAlive := true
    guest_host := false
    auto_size_enabled := false
    is_full_page_plugin := false
    embedder := none
    min_auto_size := ⟨0, 0⟩
    max_auto_size := ⟨0, 0⟩
    normal_size := ⟨0, 0⟩
    guest_size := ⟨0, 0⟩
    embedderViewport := ⟨0, 0⟩ }

/-- Model of the wrapping constructor `WebContents::WebContents(
content::WebContents*)` (used by `WebContents::CreateFrom`): observes an
existing live web contents; `storage_` is never set. -/
def mkFromExisting : State :=
  { guest_instance_id := -1
    guest_opaque := true
    storage := false
    webAlive := true
    guest_host := false
    auto_size_enabled := false
    is_full_page_plugin := false
    embedder := none
    min_auto_size := ⟨0, 0⟩
    max_auto_size := ⟨0, 0⟩
    normal_size := ⟨0, 0⟩
    guest_size := ⟨0, 0⟩
    embedderViewport := ⟨0, 0⟩ }

/-- Model of `WebContents::SetGuestHost`. -/
def setGuestHost (s : State) (hostNonNull : Bool) : State :=
  { s with guest_host := hostNonNull }

/-- Model of `WebContents::WillAttach`: stores the embedder pointer and the
full-page-plugin flag; the element instance id is ignored by the body. -/
def willAttach (s : State) (embedderId : Nat) (_elementInstanceId : Int)
    (isFullPagePlugin : Bool) : State :=
  { s with embedder := some embedderId,
           is_full_page_plugin := isFullPagePlugin }

/-- Model of `WebContents::GetOwnerWebContents`. -/
def getOwnerWebContents (s : State) : Option Nat :=
  s.embedder

/-- Model of `WebContents::IsAlive`: `web_contents() != NULL`. -/
def isAlive (s : State) : Bool :=
  s.webAlive

/-- Model of `WebContents::Destroy`.  When `storage_` is live the body
first runs `WebContentsDestroyed()` (which emits `render-view-deleted`
and `destroyed`), then calls `guest_host_->WillDestroy()` with no null
check — a null-pointer fault (`none`) when no guest host was ever set —
then clears `guest_host_`, stops observing (`Observe(nullptr)` makes
`web_contents()` null) and resets `storage_`.  Without live storage the
body is a no-op. -/
def destroy (s : State) : Option (State × List Event) :=
  if s.storage then
    if s.guest_host then
      some ({ s with guest_host := false, webAlive := false, storage := false },
            [Event.renderViewDeleted, Event.destroyed])
    else none
  else some (s, [])

/-- Iterate `destroy` a number of times, concatenating the emitted
events; a fault at any call faults the whole run. -/
def destroyN : Nat → State → Option (State × List Event)
  | 0, s => some (s, [])
  | n + 1, s =>
    match destroy s with
    | none => none
    | some (s', ev) =>
      match destroyN n s' with
      | none => none
      | some (s'', ev') => some (s'', ev ++ ev')

/-- Model of `WebContents::GuestSizeChanged`: ignored unless auto-size is
enabled; otherwise emits `size-changed` with the previous stored size and
the new size, then stores the new size. -/
def guestSizeChanged (s : State) (newSize : Size) : State × List Event :=
  if s.auto_size_enabled then
    ({ s with guest_size := newSize },
     [Event.sizeChanged s.guest_size.width s.guest_size.height
        newSize.width newSize.height])
  else (s, [])

/-- Model of `atom::api::SetSizeParams` (all fields are
`scoped_ptr`-style optionals). -/
structure SetSizeParams where
  enable_auto_size : Option Bool
  min_size : Option Size
  max_size : Option Size
  normal_size : Option Size
deriving DecidableEq, Repr

/-- The caller-side options dictionary handed to `setSize` from script:
which keys are present and, for present keys, their converted values. -/
structure SetSizeOptions where
  enableAutoSize : Option Bool
  min : Option Size
  max : Option Size
  normal : Option Size
deriving DecidableEq, Repr

/-- Model of `mate::Converter<atom::api::SetSizeParams>::FromV8` on a
successfully converted dictionary.  Note the source stores
`new bool(true)` whenever the `enableAutoSize` key converts, discarding
the converted value `autosize`. -/
def setSizeParamsFromV8 (d : SetSizeOptions) : SetSizeParams :=
  { enable_auto_size :=
      match d.enableAutoSize with
      | some _ => some true
      | none => none
    min_size := d.min
    max_size := d.max
    normal_size := d.normal }

/-- Model of `WebContents::GetDefaultSize`: the visible viewport of the
viewport for a full-page plugin, else `(kDefaultWidth, kDefaultHeight)
= (300, 300)`. -/
def getDefaultSize (s : State) : Size :=
  if s.is_full_page_plugin then s.embedderViewport else ⟨300, 300⟩

/-- The resolved, clamped minimum of `SetSize` (lines 640, 646-647):
explicit `min` if provided else the stored value, then `SetToMin` against
the resolved maximum. -/
def resolvedMinSize (s : State) (p : SetSizeParams) : Size :=
  (p.min_size.getD s.min_auto_size).setToMin (p.max_size.getD s.max_auto_size)

/-- The resolved, clamped maximum of `SetSize` (lines 641, 648-649):
explicit `max` if provided else the stored value, then `SetToMax` against
the resolved minimum. -/
def resolvedMaxSize (s : State) (p : SetSizeParams) : Size :=
  (p.max_size.getD s.max_auto_size).setToMax (p.min_size.getD s.min_auto_size)

/-- The resolved auto-size flag of `SetSize` (lines 638-639 and 651):
the explicit value if provided else the stored flag, then forced false
when either clamped bound is empty. -/
def resolvedAutoSize (s : State) (p : SetSizeParams) : Bool :=
  (p.enable_auto_size.getD s.auto_size_enabled) &&
    (!(resolvedMinSize s p).isEmpty && !(resolvedMaxSize s p).isEmpty)

/-- The stored normal size after the partial fill on the fixed-size path
(lines 643-644 and 660-664): the explicit `normal` if provided else the
stored value, with a missing component filled from the default size. -/
def fixedNormal (s : State) (p : SetSizeParams) : Size :=
  let n := p.normal_size.getD s.normal_size
  let n1 := if n.width ≠ 0 ∧ n.height = 0
            then ⟨n.width, (getDefaultSize s).height⟩ else n
  if n1.width = 0 ∧ n1.height ≠ 0
  then ⟨(getDefaultSize s).width, n1.height⟩ else n1

/-- The effective target size on the fixed-size path (lines 666-673): the
filled normal size if non-empty, else the last reported guest size if
non-empty, else the default size. -/
def fixedTarget (s : State) (p : SetSizeParams) : Size :=
  if (fixedNormal s p).isEmpty = false then fixedNormal s p
  else if s.guest_size.isEmpty = false then s.guest_size
  else getDefaultSize s

/-- Model of `WebContents::SetSize` (lines 637-688).  The body reads
`web_contents()->GetRenderViewHost()` (fault when the observed web
contents is null), and on the already-disabled fixed path calls
`guest_host_->SizeContents` with no null check (fault when no guest host
is set). -/
def setSize (s : State) (p : SetSizeParams) : Option (State × List Event) :=
  if s.webAlive = false then none
  else if resolvedAutoSize s p = true then
    some ({ s with min_auto_size := resolvedMinSize s p,
                   max_auto_size := resolvedMaxSize s p,
                   normal_size := ⟨0, 0⟩,
                   auto_size_enabled := true },
          [Event.enableAutoResize (resolvedMinSize s p) (resolvedMaxSize s p)])
  else if s.auto_size_enabled then
    some ({ s with min_auto_size := resolvedMinSize s p,
                   max_auto_size := resolvedMaxSize s p,
                   normal_size := fixedNormal s p,
                   guest_size := fixedTarget s p,
                   auto_size_enabled := false },
          [Event.disableAutoResize (fixedTarget s p),
           Event.sizeChanged s.guest_size.width s.guest_size.height
             (fixedTarget s p).width (fixedTarget s p).height])
  else if s.guest_host then
    some ({ s with min_auto_size := resolvedMinSize s p,
                   max_auto_size := resolvedMaxSize s p,
                   normal_size := fixedNormal s p,
                   guest_size := fixedTarget s p,
                   auto_size_enabled := false },
          [Event.sizeContents (fixedTarget s p)])
  else none

/-- Model of `content::FaviconURL::IconType`. -/
inductive IconType where
  | invalid
  | favicon
  | touchIcon
  | touchPrecomposedIcon
deriving DecidableEq, Repr

/-- Model of a `GURL`: an opaque spec string plus its validity flag. -/
structure GURL where
  spec : String
  valid : Bool
deriving DecidableEq, Repr

/-- Model of `content::FaviconURL`. -/
structure FaviconURL where
  icon_url : GURL
  icon_type : IconType
deriving DecidableEq, Repr

/-- One loop iteration of `WebContents::DidUpdateFaviconURL`: skip entries
whose icon type is not `FAVICON` and entries whose URL is invalid, insert
the rest into the set. -/
def faviconStep (acc : Finset GURL) (f : FaviconURL) : Finset GURL :=
  if f.icon_type = IconType.favicon ∧ f.icon_url.valid = true
  then insert f.icon_url acc else acc

/-- Model of `WebContents::DidUpdateFaviconURL`: the `std::set<GURL>`
payload of the emitted `page-favicon-updated` notification. -/
def didUpdateFaviconURL (urls : List FaviconURL) : Finset GURL :=
  urls.foldl faviconStep ∅

/-- Spec-worded payload for comparison: the set of URLs whose icon type is
the favicon type, with no validity filtering (the wording of the claim). -/
def faviconTypeURLSet (urls : List FaviconURL) : Finset GURL :=
  urls.foldl
    (fun acc f =>
      if f.icon_type = IconType.favicon then insert f.icon_url acc else acc)
    ∅

/-- A guest controller after construction and `SetGuestHost`: the state in
which the engine normally calls back into the controller. -/
def guestHostState : State :=
  setGuestHost (mkFromOptions none) true

/-- Parameters converted from `setSize({enableAutoSize: true, min: (10,10),
max: (20,20), normal: (123,45)})`. -/
def autoOnParams : SetSizeParams :=
  setSizeParamsFromV8
    { enableAutoSize := some true, min := some ⟨10, 10⟩,
      max := some ⟨20, 20⟩, normal := some ⟨123, 45⟩ }

/-- The state `setSize guestHostState autoOnParams` produces. -/
def autoOnState : State :=
  { guestHostState with min_auto_size := ⟨10, 10⟩,
                        max_auto_size := ⟨20, 20⟩,
                        auto_size_enabled := true }

/-- The events `setSize guestHostState autoOnParams` emits. -/
def autoOnEvents : List Event :=
  [Event.enableAutoResize ⟨10, 10⟩ ⟨20, 20⟩]

/-- Parameters converted from `setSize({normal: (400, 0)})`. -/
def normalParams : SetSizeParams :=
  setSizeParamsFromV8
    { enableAutoSize := none, min := none, max := none,
      normal := some ⟨400, 0⟩ }

/-- The state `setSize guestHostState normalParams` produces. -/
def normalState : State :=
  { guestHostState with normal_size := ⟨400, 300⟩,
                        guest_size := ⟨400, 300⟩ }

/-- The events `setSize guestHostState normalParams` emits. -/
def normalEvents : List Event :=
  [Event.sizeContents ⟨400, 300⟩]

/-- The state a successful `Destroy` leaves behind. -/
def afterDestroy (s : State) : State :=
  { s with guest_host := false, webAlive := false, storage := false }

lemma destroyN_noop (n : Nat) (s : State) (h : s.storage = false) :
    destroyN n s = some (s, []) := by
  induction n with
  | zero => rfl
  | succ m ih => simp [destroyN, destroy, h, ih]

lemma destroy_of_live (s : State) (hs : s.storage = true)
    (hg : s.guest_host = true) :
    destroy s = some (afterDestroy s,
      [Event.renderViewDeleted, Event.destroyed]) := by
  simp [destroy, hs, hg, afterDestroy]

lemma resolvedAutoSize_eq_true_iff (s : State) (p : SetSizeParams) :
    resolvedAutoSize s p = true ↔
      (p.enable_auto_size.getD s.auto_size_enabled = true ∧
       (resolvedMinSize s p).isEmpty = false ∧
       (resolvedMaxSize s p).isEmpty = false) := by
  simp [resolvedAutoSize, Bool.and_eq_true, Bool.not_eq_true']

lemma setSize_some_fields (s s' : State) (p : SetSizeParams)
    (ev : List Event) (h : setSize s p = some (s', ev)) :
    s'.min_auto_size = resolvedMinSize s p ∧
    s'.max_auto_size = resolvedMaxSize s p ∧
    s'.auto_size_enabled = resolvedAutoSize s p ∧
    (resolvedAutoSize s p = true →
      s'.normal_size = ⟨0, 0⟩ ∧ s'.guest_size = s.guest_size) ∧
    (resolvedAutoSize s p = false →
      s'.normal_size = fixedNormal s p ∧ s'.guest_size = fixedTarget s p) := by
  unfold setSize at h
  split at h
  · simp at h
  split at h
  next hen =>
    injection h with h'
    injection h' with h1 h2
    subst h1
    simp [hen]
  next hen =>
    have hen' : resolvedAutoSize s p = false := by
      simpa [Bool.not_eq_true] using hen
    split at h
    next hprev =>
      injection h with h'
      injection h' with h1 h2
      subst h1
      simp [hen']
    next hprev =>
      split at h
      next hgh =>
        injection h with h'
        injection h' with h1 h2
        subst h1
        simp [hen']
      next hgh =>
        simp at h

/-- C1 counterexample: with the `enableAutoSize` key absent, the stored
flag false, and non-empty `min = (10,10)` and `max = (20,20)` supplied,
`SetSize` completes with auto-size still disabled even though both
resolved bounds are non-empty, refuting the claimed unconditional
equivalence. -/
theorem setSize_auto_iff_nonempty_cex :
    (resolvedMinSize guestHostState
      (setSizeParamsFromV8
        { enableAutoSize := none, min := some ⟨10, 10⟩,
          max := some ⟨20, 20⟩, normal := none })).isEmpty = false ∧
    (resolvedMaxSize guestHostState
      (setSizeParamsFromV8
        { enableAutoSize := none, min := some ⟨10, 10⟩,
          max := some ⟨20, 20⟩, normal := none })).isEmpty = false ∧
    (setSize guestHostState
      (setSizeParamsFromV8
        { enableAutoSize := none, min := some ⟨10, 10⟩,
          max := some ⟨20, 20⟩, normal := none })).map
      (fun r => r.1.auto_size_enabled) = some false := by
  decide

/-- C1 (amended): after every completing `SetSize` call, auto-size is
enabled iff the resolved `enableAutoSize` flag (the parsed value when the
key was present, else the stored flag) is true and both the resolved
clamped `min` and `max` are non-empty. -/
theorem setSize_autoSize_iff (s s' : State) (p : SetSizeParams)
    (ev : List Event) (h : setSize s p = some (s', ev)) :
    s'.auto_size_enabled = true ↔
      (p.enable_auto_size.getD s.auto_size_enabled = true ∧
       (resolvedMinSize s p).isEmpty = false ∧
       (resolvedMaxSize s p).isEmpty = false) := by
  rw [(setSize_some_fields s s' p ev h).2.2.1, resolvedAutoSize_eq_true_iff]

/-- Witness for C1 at a concrete enabling call. -/
theorem setSize_autoSize_iff_witness :
    autoOnState.auto_size_enabled = true :=
  (setSize_autoSize_iff guestHostState autoOnState autoOnParams autoOnEvents
    (by decide)).mpr (by decide)

/-- C3: after every completing `SetSize` call — hence after each call of
any sequence of calls, with arbitrary, possibly inverted or partially
supplied `min` and `max` — the stored minimum is component-wise at most
the stored maximum. -/
theorem setSize_min_le_max (s s' : State) (p : SetSizeParams)
    (ev : List Event) (h : setSize s p = some (s', ev)) :
    s'.min_auto_size.width ≤ s'.max_auto_size.width ∧
    s'.min_auto_size.height ≤ s'.max_auto_size.height := by
  obtain ⟨hmin, hmax, -⟩ := setSize_some_fields s s' p ev h
  rw [hmin, hmax]
  constructor
  · exact le_trans (Nat.min_le_right _ _) (Nat.le_max_left _ _)
  · exact le_trans (Nat.min_le_right _ _) (Nat.le_max_left _ _)

/-- Witness for C3 at a concrete call. -/
theorem setSize_min_le_max_witness :
    autoOnState.min_auto_size.width ≤ autoOnState.max_auto_size.width ∧
    autoOnState.min_auto_size.height ≤ autoOnState.max_auto_size.height :=
  setSize_min_le_max guestHostState autoOnState autoOnParams autoOnEvents
    (by decide)

/-- C4: on the fixed-size path of `SetSize` (auto-size resolved to
disabled) the new stored guest size is chosen by priority: the stored
normal size after the partial fill from the default size if non-empty,
else the last known guest size if non-empty, else the default size. -/
theorem setSize_fixed_size_priority (s s' : State) (p : SetSizeParams)
    (ev : List Event) (h : setSize s p = some (s', ev))
    (hfix : resolvedAutoSize s p = false) :
    ((fixedNormal s p).isEmpty = false → s'.guest_size = fixedNormal s p) ∧
    ((fixedNormal s p).isEmpty = true → s.guest_size.isEmpty = false →
      s'.guest_size = s.guest_size) ∧
    ((fixedNormal s p).isEmpty = true → s.guest_size.isEmpty = true →
      s'.guest_size = getDefaultSize s) := by
  have hguest : s'.guest_size = fixedTarget s p :=
    ((setSize_some_fields s s' p ev h).2.2.2.2 hfix).2
  rw [hguest]
  unfold fixedTarget
  refine ⟨fun hn => by simp [hn], fun hn hg => ?_, fun hn hg => ?_⟩
  · simp [hn, hg]
  · simp [hn, hg]

/-- Witness for C4: the example scenario `SetSize({normal: (400, 0)})`
with default size `(300, 300)` and auto-size currently disabled yields a
stored guest size of `(400, 300)`. -/
theorem setSize_fixed_size_priority_witness :
    normalState.guest_size = ⟨400, 300⟩ ∧
    getDefaultSize guestHostState = ⟨300, 300⟩ :=
  ⟨(setSize_fixed_size_priority guestHostState normalState normalParams
      normalEvents (by decide) (by decide)).1 (by decide),
   by decide⟩

/-- C7: whenever a `SetSize` call resolves to auto-size enabled, the
stored normal size is reset to zero; consequently a subsequent completing
`SetSize` call with no `normal` field that resolves to the fixed-size
path picks its target from the last known guest size or the default size,
never from a stale normal size. -/
theorem setSize_enable_resets_normal (s s' : State) (p : SetSizeParams)
    (ev : List Event) (h : setSize s p = some (s', ev))
    (hauto : resolvedAutoSize s p = true) :
    s'.normal_size = ⟨0, 0⟩ ∧
    ∀ p2 s'' ev2, p2.normal_size = none →
      resolvedAutoSize s' p2 = false →
      setSize s' p2 = some (s'', ev2) →
      (s''.guest_size = s'.guest_size ∨
       s''.guest_size = getDefaultSize s') := by
  have hnorm : s'.normal_size = ⟨0, 0⟩ :=
    ((setSize_some_fields s s' p ev h).2.2.2.1 hauto).1
  refine ⟨hnorm, fun p2 s'' ev2 hn2 hfix2 h2 => ?_⟩
  have hguest : s''.guest_size = fixedTarget s' p2 :=
    ((setSize_some_fields s' s'' p2 ev2 h2).2.2.2.2 hfix2).2
  have hfn : fixedNormal s' p2 = ⟨0, 0⟩ := by
    simp [fixedNormal, hn2, hnorm]
  rw [hguest]
  unfold fixedTarget
  rw [hfn]
  simp only [Size.isEmpty]
  split
  · simp_all
  · split
    · exact Or.inl rfl
    · exact Or.inr rfl

/-- Witness for C7 at a concrete enabling call that also supplied a
normal size of `(123, 45)`. -/
theorem setSize_enable_resets_normal_witness :
    autoOnState.normal_size = ⟨0, 0⟩ :=
  (setSize_enable_resets_normal guestHostState autoOnState autoOnParams
    autoOnEvents (by decide) (by decide)).1

/-- C2 counterexample: a controller built by the options constructor has
live storage but a null `guest_host_` until the content layer calls
`SetGuestHost`; its first `Destroy` dereferences the null guest host
(`guest_host_->WillDestroy()` has no null check), refuting the claim that
`Destroy` never faults for every controller. -/
theorem destroy_idempotent_cex :
    (mkFromOptions none).storage = true ∧
    destroy (mkFromOptions none) = none := by
  decide

/-- C2 (amended): for every controller with live storage whose guest host
has been set, calling `Destroy` any positive number of times emits the
`destroyed` notification exactly once (on the first call), every later
call is a no-op emitting nothing, and no call faults. -/
theorem destroy_idempotent_amended (s : State) (n : Nat)
    (hs : s.storage = true) (hg : s.guest_host = true) (hn : 1 ≤ n) :
    destroyN n s = some (afterDestroy s,
      [Event.renderViewDeleted, Event.destroyed]) ∧
    (destroyN n s).map (fun r => r.2.count Event.destroyed) = some 1 ∧
    ∀ m, destroyN m (afterDestroy s) = some (afterDestroy s, []) := by
  obtain ⟨m, rfl⟩ : ∃ m, n = m + 1 := ⟨n - 1, by omega⟩
  have hd := destroy_of_live s hs hg
  have hafter : (afterDestroy s).storage = false := rfl
  have hrun : destroyN (m + 1) s = some (afterDestroy s,
      [Event.renderViewDeleted, Event.destroyed]) := by
    simp [destroyN, hd, destroyN_noop m _ hafter]
  exact ⟨hrun, by rw [hrun]; rfl, fun k => destroyN_noop k _ hafter⟩

/-- Witness for C2: two `Destroy` calls on a guest controller with its
guest host set emit `destroyed` exactly once. -/
theorem destroy_idempotent_amended_witness :
    destroyN 2 guestHostState = some (afterDestroy guestHostState,
      [Event.renderViewDeleted, Event.destroyed]) ∧
    (destroyN 2 guestHostState).map
      (fun r => r.2.count Event.destroyed) = some 1 :=
  ⟨(destroy_idempotent_amended guestHostState 2 (by decide) (by decide)
      (by decide)).1,
   (destroy_idempotent_amended guestHostState 2 (by decide) (by decide)
      (by decide)).2.1⟩

/-- C5 counterexample: two `WillAttach` calls with embedders `1` then `2`
leave the controller holding embedder `2`, not the first value `1`. -/
theorem willAttach_first_wins_cex :
    getOwnerWebContents
      (willAttach (willAttach mkFromExisting 1 0 false) 2 0 false) =
      some 2 ∧ (2 : Nat) ≠ 1 := by
  decide

/-- C5 (amended): `WillAttach` overwrites the recorded embedder, so after
two calls the controller holds the second embedder value. -/
theorem willAttach_overwrites (s : State) (e1 e2 : Nat) (i1 i2 : Int)
    (f1 f2 : Bool) :
    getOwnerWebContents (willAttach (willAttach s e1 i1 f1) e2 i2 f2) =
      some e2 :=
  rfl

/-- Witness for C5 at concrete embedder identities. -/
theorem willAttach_overwrites_witness :
    getOwnerWebContents
      (willAttach (willAttach guestHostState 4 0 false) 5 0 true) =
      some 5 :=
  willAttach_overwrites guestHostState 4 5 0 0 false true

/-- C6: an inbound guest-size-changed notification is ignored (state
unchanged, nothing emitted) when auto-size is disabled; when auto-size is
enabled it emits a size-changed notification carrying the previous stored
size and the new size, and stores the new size. -/
theorem guestSizeChanged_spec (s : State) (n : Size) :
    (s.auto_size_enabled = false →
      (guestSizeChanged s n).1 = s ∧ (guestSizeChanged s n).2 = []) ∧
    (s.auto_size_enabled = true →
      (guestSizeChanged s n).2 =
        [Event.sizeChanged s.guest_size.width s.guest_size.height
          n.width n.height] ∧
      (guestSizeChanged s n).1.guest_size = n) := by
  constructor <;> intro ha <;> simp [guestSizeChanged, ha]

/-- Witness for C6 in both modes at concrete inputs. -/
theorem guestSizeChanged_spec_witness :
    (guestSizeChanged guestHostState ⟨7, 8⟩).1 = guestHostState ∧
    (guestSizeChanged autoOnState ⟨7, 8⟩).2 =
      [Event.sizeChanged 0 0 7 8] :=
  ⟨((guestSizeChanged_spec guestHostState ⟨7, 8⟩).1 (by decide)).1,
   ((guestSizeChanged_spec autoOnState ⟨7, 8⟩).2 (by decide)).1⟩

/-- C9 counterexample: a controller built by the wrapping constructor
(`CreateFrom`) has no live storage, so its first `Destroy` is a no-op and
`IsAlive` still returns true afterwards, refuting the claim that
`IsAlive` is false at every point after the first `Destroy` call. -/
theorem isAlive_after_destroy_cex :
    destroy mkFromExisting = some (mkFromExisting, []) ∧
    isAlive mkFromExisting = true := by
  decide

/-- C9 (amended): for a controller with a live observed web contents,
live storage and a set guest host, `IsAlive` is true before the first
`Destroy`; the first `Destroy` releases the handle and `IsAlive` is false
from then on, across any number of further `Destroy` calls — `IsAlive`
reports exactly whether the observed web contents is still non-null. -/
theorem isAlive_iff_amended (s : State)
    (hw : s.webAlive = true) (hs : s.storage = true)
    (hg : s.guest_host = true) :
    isAlive s = true ∧
    destroy s = some (afterDestroy s,
      [Event.renderViewDeleted, Event.destroyed]) ∧
    isAlive (afterDestroy s) = false ∧
    ∀ m, (destroyN m (afterDestroy s)).map (fun r => isAlive r.1) =
      some false := by
  have hafter : (afterDestroy s).storage = false := rfl
  refine ⟨hw, destroy_of_live s hs hg, rfl, fun m => ?_⟩
  rw [destroyN_noop m _ hafter]
  rfl

/-- Witness for C9 at a concrete guest controller. -/
theorem isAlive_iff_amended_witness :
    isAlive guestHostState = true ∧
    isAlive (afterDestroy guestHostState) = false :=
  ⟨(isAlive_iff_amended guestHostState (by decide) (by decide)
      (by decide)).1,
   (isAlive_iff_amended guestHostState (by decide) (by decide)
      (by decide)).2.2.1⟩

lemma mem_foldl_faviconStep (urls : List FaviconURL) (acc : Finset GURL)
    (u : GURL) :
    u ∈ urls.foldl faviconStep acc ↔
      u ∈ acc ∨ ∃ f ∈ urls, f.icon_type = IconType.favicon ∧
        f.icon_url.valid = true ∧ f.icon_url = u := by
  induction urls generalizing acc with
  | nil => simp
  | cons f fs ih =>
    simp only [List.foldl_cons, ih, faviconStep, List.mem_cons]
    by_cases hf : f.icon_type = IconType.favicon ∧ f.icon_url.valid = true
    · simp only [if_pos hf, Finset.mem_insert]
      aesop
    · simp only [if_neg hf]
      aesop

/-- C8 counterexample: an inbound list holding one favicon-type entry
whose URL is invalid produces an empty payload, while the set of URLs of
favicon-type entries contains that URL — the code also filters by URL
validity, which the claim omits. -/
theorem favicon_payload_cex :
    didUpdateFaviconURL
      [⟨⟨"http:bad", false⟩, IconType.favicon⟩] = ∅ ∧
    (⟨"http:bad", false⟩ : GURL) ∈
      faviconTypeURLSet [⟨⟨"http:bad", false⟩, IconType.favicon⟩] := by
  constructor
  · rfl
  · simp [faviconTypeURLSet]

/-- C8 (amended): for every inbound favicon-URL list, the emitted payload
is exactly the set of valid URLs whose icon type is the favicon type —
deduplicated, with non-favicon icon types and invalid URLs excluded. -/
theorem favicon_payload_spec (urls : List FaviconURL) (u : GURL) :
    u ∈ didUpdateFaviconURL urls ↔
      ∃ f ∈ urls, f.icon_type = IconType.favicon ∧
        f.icon_url.valid = true ∧ f.icon_url = u := by
  simp [didUpdateFaviconURL, mem_foldl_faviconStep]

/-- Witness for C8: a valid favicon-type URL is in the emitted payload. -/
theorem favicon_payload_spec_witness :
    (⟨"http:ok", true⟩ : GURL) ∈
      didUpdateFaviconURL [⟨⟨"http:ok", true⟩, IconType.favicon⟩] :=
  (favicon_payload_spec [⟨⟨"http:ok", true⟩, IconType.favicon⟩]
    ⟨"http:ok", true⟩).mpr
    ⟨⟨⟨"http:ok", true⟩, IconType.favicon⟩, by simp, rfl, rfl, rfl⟩

/-- C10: whenever the `enableAutoSize` key is present in the options
dictionary and converts to a bool, the parsed `enable_auto_size` field is
set to `true` regardless of the supplied value, so an explicit
`enableAutoSize: false` yields the same parameters — and hence the same
`SetSize` behaviour — as `enableAutoSize: true`. -/
theorem fromV8_enableAutoSize_always_true (d : SetSizeOptions) (b : Bool)
    (h : d.enableAutoSize = some b) :
    (setSizeParamsFromV8 d).enable_auto_size = some true ∧
    setSizeParamsFromV8 { d with enableAutoSize := some false } =
      setSizeParamsFromV8 { d with enableAutoSize := some true } ∧
    ∀ s : State,
      setSize s (setSizeParamsFromV8 { d with enableAutoSize := some false }) =
      setSize s (setSizeParamsFromV8 { d with enableAutoSize := some true }) := by
  refine ⟨?_, ?_, fun s => ?_⟩
  · simp [setSizeParamsFromV8, h]
  · simp [setSizeParamsFromV8]
  · simp [setSizeParamsFromV8]

/-- Witness for C10: an explicit `enableAutoSize: false` parses to
`enable_auto_size = some true`. -/
theorem fromV8_enableAutoSize_always_true_witness :
    (setSizeParamsFromV8
      { enableAutoSize := some false, min := none, max := none,
        normal := none }).enable_auto_size = some true :=
  (fromV8_enableAutoSize_always_true
    { enableAutoSize := some false, min := none, max := none,
      normal := none } false rfl).1

end AtomWebContents
